import Mathlib

/-!
# Gaze-Unity: shallow embedding and verification

A shallow embedding of the gaze-tracking program (src/UnityGaze/unity_gaze.py
and src/main.py) and proofs of the specification claims about it.

Python floats are modelled as exact rationals (`ℚ`), Python ints as `ℤ`.
A Python value that may be `None` is an `Option`.  A Python function that may
let an exception escape returns `Except PyErr _`.
-/

namespace GazeUnity

/-- Python `int(q)` on a float: truncation toward zero. -/
def pyInt (q : ℚ) : ℤ := if 0 ≤ q then ⌊q⌋ else ⌈q⌉

/-- Embeds `int(dist.euclidean(p, q))` for integer points `p q`: the float square root
of an integer, truncated toward zero, is the integer square root. -/
def euclid_int (p q : ℤ × ℤ) : ℤ :=
  (Nat.sqrt ((q.1 - p.1).natAbs ^ 2 + (q.2 - p.2).natAbs ^ 2) : ℤ)

/-- Modelled from the spec: the per-eye state produced by `Eye(...)`
(src/UnityGaze/eye.py is not in the repository snapshot).  A pupil is a 2D
point in region-local coordinates, or absent (`none`) if no contour is found;
absence is explicit since zero is a valid coordinate.  `origin` is the eye
region's top-left corner in frame coordinates, `center` the mask-based center
estimate, `blinking` the eye's blinking ratio. -/
structure Eye where
  origin : ℤ × ℤ
  pupil_x : Option ℤ
  pupil_y : Option ℤ
  center : ℚ × ℚ
  blinking : ℚ
  deriving Repr, DecidableEq

/-- One coarse eye bounding box `[x1, x2, y1, y2]` as stored by `_analyze`. -/
structure BBox where
  x1 : ℤ
  x2 : ℤ
  y1 : ℤ
  y2 : ℤ
  deriving Repr, DecidableEq

/-- The mutable state of a `GazeEstimation` object (src/UnityGaze/unity_gaze.py,
`__init__`): the two per-eye aggregates and the cached coarse bounding boxes.
All three start out `None`. -/
structure GazeState where
  eye_left : Option Eye
  eye_right : Option Eye
  coords_arr : Option (BBox × BBox)
  deriving Repr, DecidableEq

/-- The state right after `GazeEstimation.__init__`. -/
def init_state : GazeState := ⟨none, none, none⟩

/-- Embeds `GazeEstimation.pupils_located`: tries `int(...)` on the four pupil
coordinates; an absent eye (`AttributeError`) or an absent pupil coordinate
(`TypeError` on `int(None)`) is caught and yields `False`. -/
def pupils_located (s : GazeState) : Bool :=
  match s.eye_left, s.eye_right with
  | some l, some r =>
      l.pupil_x.isSome && l.pupil_y.isSome && r.pupil_x.isSome && r.pupil_y.isSome
  | _, _ => false

/-- Embeds `GazeEstimation.pupil_left_coords`: frame coordinates of the left pupil,
`None` when the pupils are not located. -/
def pupil_left_coords (s : GazeState) : Option (ℤ × ℤ) :=
  if pupils_located s then
    match s.eye_left with
    | some l =>
        match l.pupil_x, l.pupil_y with
        | some px, some py => some (l.origin.1 + px, l.origin.2 + py)
        | _, _ => none
    | none => none
  else none

/-- Embeds `GazeEstimation.pupil_right_coords`. -/
def pupil_right_coords (s : GazeState) : Option (ℤ × ℤ) :=
  if pupils_located s then
    match s.eye_right with
    | some r =>
        match r.pupil_x, r.pupil_y with
        | some px, some py => some (r.origin.1 + px, r.origin.2 + py)
        | _, _ => none
    | none => none
  else none

/-- Embeds `GazeEstimation.horizontal_ratio`: mean over both eyes of
`pupil.x / (center.x * 2 - 10)`, `None` when the pupils are not located. -/
def horizontal_ratio (s : GazeState) : Option ℚ :=
  if pupils_located s then
    match s.eye_left, s.eye_right with
    | some l, some r =>
        match l.pupil_x, r.pupil_x with
        | some lx, some rx =>
            some (((lx : ℚ) / (l.center.1 * 2 - 10)
                  + (rx : ℚ) / (r.center.1 * 2 - 10)) / 2)
        | _, _ => none
    | _, _ => none
  else none

/-- Embeds `GazeEstimation.vertical_ratio`: the analogous mean on the y axis. -/
def vertical_ratio (s : GazeState) : Option ℚ :=
  if pupils_located s then
    match s.eye_left, s.eye_right with
    | some l, some r =>
        match l.pupil_y, r.pupil_y with
        | some ly, some ry =>
            some (((ly : ℚ) / (l.center.2 * 2 - 10)
                  + (ry : ℚ) / (r.center.2 * 2 - 10)) / 2)
        | _, _ => none
    | _, _ => none
  else none

/-- Embeds `GazeEstimation.is_right`: `horizontal_ratio() <= 0.35` when the pupils
are located, `None` otherwise. -/
def is_right (s : GazeState) : Option Bool :=
  if pupils_located s then
    match horizontal_ratio s with
    | some r => some (decide (r ≤ 35/100))
    | none => none
  else none

/-- Embeds `GazeEstimation.is_left`: `horizontal_ratio() >= 0.65` when the pupils
are located, `None` otherwise. -/
def is_left (s : GazeState) : Option Bool :=
  if pupils_located s then
    match horizontal_ratio s with
    | some r => some (decide (r ≥ 65/100))
    | none => none
  else none

/-- Embeds `GazeEstimation.is_center`: `is_right() is not True and is_left() is not
True` when the pupils are located, `None` otherwise. -/
def is_center (s : GazeState) : Option Bool :=
  if pupils_located s then
    some (decide (is_right s ≠ some true ∧ is_left s ≠ some true))
  else none

/-- Embeds `GazeEstimation.is_blinking`: the average of the two eyes' blinking ratios
compared against the fixed threshold `3.8`, `None` when the pupils are not
located. -/
def is_blinking (s : GazeState) : Option Bool :=
  if pupils_located s then
    match s.eye_left, s.eye_right with
    | some l, some r => some (decide ((l.blinking + r.blinking) / 2 > 38/10))
    | _, _ => none
  else none

/-- Embeds `GazeEstimation.eye_roi_bb`: returns the cached `coords_arr`. -/
def eye_roi_bb (s : GazeState) : Option (BBox × BBox) := s.coords_arr

/-- Modelled from the spec: the outcome of running the dlib face detector and
landmark predictor on one frame, when at least one face was found.  `parts i`
is the i-th facial landmark point; `eyeL` and `eyeR` are the eye aggregates
built by `Eye(frame, landmarks, 0/1, calibration)` (eye.py is not in the
repository snapshot). -/
structure DetectionResult where
  parts : Nat → ℤ × ℤ
  eyeL : Eye
  eyeR : Eye

/-- The coarse bounding boxes `_analyze` derives from landmarks
36/39/37/40 (left eye) and 42/45/44/47 (right eye). -/
def coarse_boxes (d : DetectionResult) : BBox × BBox :=
  (⟨(d.parts 36).1, (d.parts 39).1, (d.parts 37).2, (d.parts 40).2⟩,
   ⟨(d.parts 42).1, (d.parts 45).1, (d.parts 44).2, (d.parts 47).2⟩)

/-- Embeds `GazeEstimation._analyze` on one frame, with the external detector's
outcome passed in: `none` when the detector returned zero faces, in which case
`faces[0]` raises `IndexError`, the handler sets both eye aggregates to `None`
and `coords_arr` is left untouched; otherwise the coarse boxes are cached and
both eye aggregates are rebuilt. -/
def _analyze (det : Option DetectionResult) (s : GazeState) : GazeState :=
  match det with
  | none => { s with eye_left := none, eye_right := none }
  | some d =>
      { s with
        coords_arr := some (coarse_boxes d),
        eye_left := some d.eyeL,
        eye_right := some d.eyeR }

/-- Embeds `GazeEstimation.refresh`: stores the flipped frame (not modelled — no claim
touches the pixels) and runs `_analyze`. -/
def refresh (det : Option DetectionResult) (s : GazeState) : GazeState :=
  _analyze det s

/-- A sequence of `refresh` calls starting from a given state. -/
def run_frames (dets : List (Option DetectionResult)) (s : GazeState) : GazeState :=
  dets.foldl (fun st d => refresh d st) s

/-! ## main.py -/

/-- Exceptions that can escape the embedded fragments of main.py. -/
inductive PyErr where
  | unboundLocalError
  deriving Repr, DecidableEq

/-- Embeds `get_gaze_coords` (src/main.py).  Inputs are the values of
`gaze.pupil_left_coords()`, `gaze.pupil_right_coords()` and
`gaze.eye_roi_bb()`.  The result is `Except.error` when an exception escapes
the call: inside the `try` block a `TypeError` (subscripting a `None` pupil)
or a `ZeroDivisionError` (a pupil-to-edge distance of 0) is caught by
`except Exception: pass`, but the `return` statement that follows the `try`
block then reads the never-assigned ratio variables and raises
`UnboundLocalError`.  The guard `if left_pupil or right_pupil is not None`
parses as `left_pupil or (right_pupil is not None)`; a present pupil is a
non-empty tuple and hence truthy. -/
def get_gaze_coords (left_pupil right_pupil : Option (ℤ × ℤ))
    (coord_coll : Option (BBox × BBox)) : Except PyErr (Option (ℚ × ℚ)) :=
  match coord_coll with
  | none => .ok none
  | some (lc, rc) =>
      let avg_x1 : ℤ := pyInt (((lc.x1 : ℚ) + (rc.x1 : ℚ)) / 2 + 5)
      let avg_x2 : ℤ := pyInt (((lc.x2 : ℚ) + (rc.x2 : ℚ)) / 2 - 5)
      let avg_y1 : ℤ := pyInt (((lc.y1 : ℚ) + (rc.y1 : ℚ)) / 2 - 2)
      let avg_y2 : ℤ := pyInt (((lc.y2 : ℚ) + (rc.y2 : ℚ)) / 2 + 2)
      let avg_bbox_w : ℤ := euclid_int (avg_x1, avg_y1) (avg_x2, avg_y1)
      let avg_bbox_h : ℤ := euclid_int (avg_x1, avg_y1) (avg_x1, avg_y2)
      if left_pupil.isSome || right_pupil.isSome then
        match left_pupil, right_pupil with
        | some lp, some rp =>
            let avg_pupil_x : ℤ := pyInt (((rp.1 : ℚ) + (lp.1 : ℚ)) / 2)
            let avg_pupil_y : ℤ := pyInt (((rp.2 : ℚ) + (lp.2 : ℚ)) / 2)
            let p_2_bbox_w_d : ℤ :=
              euclid_int (avg_x1, avg_pupil_y) (avg_pupil_x, avg_pupil_y)
            let p_2_bbox_h_d : ℤ :=
              euclid_int (avg_pupil_x, avg_y1) (avg_pupil_x, avg_pupil_y)
            if p_2_bbox_w_d = 0 ∨ p_2_bbox_h_d = 0 then
              .error .unboundLocalError
            else
              .ok (some ((avg_bbox_w : ℚ) / (p_2_bbox_w_d : ℚ),
                         (avg_bbox_h : ℚ) / (p_2_bbox_h_d : ℚ)))
        | _, _ => .error .unboundLocalError
      else
        .ok none

/-- The truthiness Python's `if` applies to the tested value.  In the main
loop the guard `if gaze.is_blinking:` tests the attribute value itself — a
bound method object — and a bound method object is always truthy. -/
inductive PyVal where
  | vnone : PyVal
  | vbool : Bool → PyVal
  | vmethod : (Unit → Option Bool) → PyVal

/-- Python truthiness of the modelled values: `None` is falsy, a bool is
itself, a bound method object is truthy. -/
def pyTruthy : PyVal → Bool
  | .vnone => false
  | .vbool b => b
  | .vmethod _ => true

/-- The value of the attribute expression `gaze.is_blinking` in the main
loop: attribute lookup on a method yields the bound method object (a closure
over the instance), it is not called. -/
def gaze_is_blinking_attr (s : GazeState) : PyVal :=
  .vmethod (fun _ => is_blinking s)

/-- The `blink` field the main loop computes: `1` when
`if gaze.is_blinking:` takes the true branch, else `0`. -/
def main_blink (s : GazeState) : ℤ :=
  if pyTruthy (gaze_is_blinking_attr s) then 1 else 0

/-- Embeds `','.join(map(str, [est_x, est_y, blink]))`: the ASCII comma-joined
triple, with no length prefix or terminator. -/
def encode_packet (x y b : ℤ) : String :=
  String.intercalate "," [toString x, toString y, toString b]

/-- The screen estimates of the main loop:
`est_x = int(sc_width / p_xy[0])`, `est_y = int(sc_height / p_xy[1])`. -/
def screen_estimate (sc_width sc_height : ℤ) (p : ℚ × ℚ) : ℤ × ℤ :=
  (pyInt ((sc_width : ℚ) / p.1), pyInt ((sc_height : ℚ) / p.2))

/-- The messages one main-loop iteration sends, given the gaze signal of the
frame: nothing when the gaze is undetermined, otherwise exactly one encoded
packet. -/
def frame_messages (s : GazeState) (sc_width sc_height : ℤ)
    (p_xy : Option (ℚ × ℚ)) : List String :=
  match p_xy with
  | none => []
  | some p =>
      let est := screen_estimate sc_width sc_height p
      [encode_packet est.1 est.2 (main_blink s)]

/-! ## Helper lemmas -/

lemma euclid_int_same_y (x1 x2 y : ℤ) : euclid_int (x1, y) (x2, y) = |x2 - x1| := by
  simp [euclid_int, Nat.sqrt_eq', Int.natCast_natAbs]

lemma euclid_int_same_x (x y1 y2 : ℤ) : euclid_int (x, y1) (x, y2) = |y2 - y1| := by
  simp [euclid_int, Nat.sqrt_eq', Int.natCast_natAbs]

lemma pupils_located_iff (s : GazeState) :
    pupils_located s = true ↔
      ∃ l r, s.eye_left = some l ∧ s.eye_right = some r ∧
        l.pupil_x.isSome ∧ l.pupil_y.isSome ∧ r.pupil_x.isSome ∧ r.pupil_y.isSome := by
  obtain ⟨el, er, ca⟩ := s
  cases el <;> cases er <;>
    simp [pupils_located, and_assoc]

lemma queries_none_of_not_located (s : GazeState) (h : pupils_located s = false) :
    horizontal_ratio s = none ∧ vertical_ratio s = none ∧
    is_left s = none ∧ is_right s = none ∧ is_center s = none ∧
    is_blinking s = none ∧ pupil_left_coords s = none ∧ pupil_right_coords s = none := by
  simp [horizontal_ratio, vertical_ratio, is_left, is_right, is_center, is_blinking,
    pupil_left_coords, pupil_right_coords, h]

lemma located_of_horizontal_ratio {s : GazeState} {q : ℚ}
    (h : horizontal_ratio s = some q) : pupils_located s = true := by
  by_cases hp : pupils_located s = true
  · exact hp
  · rw [Bool.not_eq_true] at hp
    simp [horizontal_ratio, hp] at h

/-! ## Claims -/

/-- C2: `pupils_located` is true iff both eye aggregates are present and both
pupils resolved to valid coordinates; whenever it is false, every ratio and
classification query returns an explicit undetermined result (`None`). -/
theorem c2_pupils_located_characterizes_queries (s : GazeState) :
    (pupils_located s = true ↔
      ∃ l r, s.eye_left = some l ∧ s.eye_right = some r ∧
        l.pupil_x.isSome ∧ l.pupil_y.isSome ∧ r.pupil_x.isSome ∧ r.pupil_y.isSome) ∧
    (pupils_located s = false →
      horizontal_ratio s = none ∧ vertical_ratio s = none ∧
      is_left s = none ∧ is_right s = none ∧ is_center s = none ∧
      is_blinking s = none ∧ pupil_left_coords s = none ∧ pupil_right_coords s = none) :=
  ⟨pupils_located_iff s, queries_none_of_not_located s⟩

/-- Witness for C2 at the freshly initialized engine state. -/
theorem c2_pupils_located_characterizes_queries_witness :
    horizontal_ratio init_state = none ∧ vertical_ratio init_state = none ∧
    is_left init_state = none ∧ is_right init_state = none ∧
    is_center init_state = none ∧ is_blinking init_state = none ∧
    pupil_left_coords init_state = none ∧ pupil_right_coords init_state = none :=
  (c2_pupils_located_characterizes_queries init_state).2 rfl

/-- C3: after a refresh on which the detector found zero faces, both eye
aggregates are absent, `pupils_located` is false and every ratio or
classification query returns undetermined — for every prior state, so nothing
is carried over from a previous frame. -/
theorem c3_zero_faces_undetermined (s : GazeState) :
    (refresh none s).eye_left = none ∧ (refresh none s).eye_right = none ∧
    pupils_located (refresh none s) = false ∧
    horizontal_ratio (refresh none s) = none ∧
    vertical_ratio (refresh none s) = none ∧
    is_left (refresh none s) = none ∧ is_right (refresh none s) = none ∧
    is_center (refresh none s) = none ∧ is_blinking (refresh none s) = none ∧
    pupil_left_coords (refresh none s) = none ∧
    pupil_right_coords (refresh none s) = none := by
  have hloc : pupils_located (refresh none s) = false := by
    simp [refresh, _analyze, pupils_located]
  have h := queries_none_of_not_located _ hloc
  refine ⟨rfl, rfl, hloc, ?_, ?_, ?_, ?_, ?_, ?_, ?_, ?_⟩ <;> tauto

/-- C4: when the pupils are located, `horizontal_ratio` is the mean over both
eyes of `pupil.x / (center.x * 2 - 10)` and `vertical_ratio` is the analogous
mean on the y axis; both are pure functions of the pupil and center inputs. -/
theorem c4_ratio_formulas (s : GazeState) (l r : Eye) (lx ly rx ry : ℤ)
    (hl : s.eye_left = some l) (hr : s.eye_right = some r)
    (hlx : l.pupil_x = some lx) (hly : l.pupil_y = some ly)
    (hrx : r.pupil_x = some rx) (hry : r.pupil_y = some ry) :
    pupils_located s = true ∧
    horizontal_ratio s =
      some (((lx : ℚ) / (l.center.1 * 2 - 10)
            + (rx : ℚ) / (r.center.1 * 2 - 10)) / 2) ∧
    vertical_ratio s =
      some (((ly : ℚ) / (l.center.2 * 2 - 10)
            + (ry : ℚ) / (r.center.2 * 2 - 10)) / 2) := by
  have hloc : pupils_located s = true := by
    simp [pupils_located, hl, hr, hlx, hly, hrx, hry]
  refine ⟨hloc, ?_, ?_⟩ <;>
    simp [horizontal_ratio, vertical_ratio, hloc, hl, hr, hlx, hly, hrx, hry]

/-- Witness for C4 at a concrete engine state. -/
theorem c4_ratio_formulas_witness :
    pupils_located
        ⟨some ⟨(0, 0), some 10, some 12, (20, 25), 3⟩,
         some ⟨(5, 5), some 11, some 13, (30, 35), 4⟩, none⟩ = true ∧
    horizontal_ratio
        ⟨some ⟨(0, 0), some 10, some 12, (20, 25), 3⟩,
         some ⟨(5, 5), some 11, some 13, (30, 35), 4⟩, none⟩ =
      some (((10 : ℚ) / (20 * 2 - 10) + (11 : ℚ) / (30 * 2 - 10)) / 2) ∧
    vertical_ratio
        ⟨some ⟨(0, 0), some 10, some 12, (20, 25), 3⟩,
         some ⟨(5, 5), some 11, some 13, (30, 35), 4⟩, none⟩ =
      some (((12 : ℚ) / (25 * 2 - 10) + (13 : ℚ) / (35 * 2 - 10)) / 2) :=
  c4_ratio_formulas _ _ _ 10 12 11 13 rfl rfl rfl rfl rfl rfl

/-- C5: when the horizontal ratio is determined, `is_right` holds iff the
ratio is at most 0.35, `is_left` holds iff it is at least 0.65, `is_center`
holds iff neither does, and exactly one of the three classifications is
true. -/
theorem c5_classification_partition (s : GazeState) (q : ℚ)
    (h : horizontal_ratio s = some q) :
    (is_right s = some true ↔ q ≤ 35/100) ∧
    (is_left s = some true ↔ 65/100 ≤ q) ∧
    (is_center s = some true ↔ ¬ q ≤ 35/100 ∧ ¬ 65/100 ≤ q) ∧
    ((is_right s = some true ∧ is_left s ≠ some true ∧ is_center s ≠ some true) ∨
     (is_left s = some true ∧ is_right s ≠ some true ∧ is_center s ≠ some true) ∨
     (is_center s = some true ∧ is_right s ≠ some true ∧ is_left s ≠ some true)) := by
  have hloc : pupils_located s = true := located_of_horizontal_ratio h
  have hR : is_right s = some (decide (q ≤ 35/100)) := by
    simp [is_right, hloc, h]
  have hL : is_left s = some (decide (65/100 ≤ q)) := by
    simp [is_left, hloc, h, ge_iff_le]
  have hC : is_center s =
      some (decide (is_right s ≠ some true ∧ is_left s ≠ some true)) := by
    simp [is_center, hloc]
  rcases le_or_lt q (35/100) with h1 | h1 <;> rcases le_or_lt (65/100) q with h2 | h2
  · exact absurd (h1.trans' h2) (by norm_num)
  · have hR' : is_right s = some true := by rw [hR]; simp [h1]
    have hL' : is_left s = some false := by rw [hL]; simp [h2.not_le]
    have hC' : is_center s = some false := by rw [hC, hR', hL']; simp
    exact ⟨by simp [hR', h1], by simp [hL', h2.not_le], by simp [hC', h1],
      Or.inl ⟨hR', by simp [hL'], by simp [hC']⟩⟩
  · have hR' : is_right s = some false := by rw [hR]; simp [h1.not_le]
    have hL' : is_left s = some true := by rw [hL]; simp [h2]
    have hC' : is_center s = some false := by rw [hC, hR', hL']; simp
    exact ⟨by simp [hR', h1.not_le], by simp [hL', h2], by simp [hC', h2],
      Or.inr (Or.inl ⟨hL', by simp [hR'], by simp [hC']⟩)⟩
  · have hR' : is_right s = some false := by rw [hR]; simp [h1.not_le]
    have hL' : is_left s = some false := by rw [hL]; simp [h2.not_le]
    have hC' : is_center s = some true := by rw [hC, hR', hL']; simp
    exact ⟨by simp [hR', h1.not_le], by simp [hL', h2.not_le],
      by simp [hC', h1.not_le, h2.not_le],
      Or.inr (Or.inr ⟨hC', by simp [hR'], by simp [hL']⟩)⟩

/-- Witness for C5 at a concrete state whose horizontal ratio is 1. -/
theorem c5_classification_partition_witness :
    (is_right ⟨some ⟨(0, 0), some 10, some 10, (10, 10), 0⟩,
               some ⟨(0, 0), some 10, some 10, (10, 10), 0⟩, none⟩ = some true ↔
        (1 : ℚ) ≤ 35/100) ∧
    (is_left ⟨some ⟨(0, 0), some 10, some 10, (10, 10), 0⟩,
              some ⟨(0, 0), some 10, some 10, (10, 10), 0⟩, none⟩ = some true ↔
        (65/100 : ℚ) ≤ 1) ∧
    (is_center ⟨some ⟨(0, 0), some 10, some 10, (10, 10), 0⟩,
                some ⟨(0, 0), some 10, some 10, (10, 10), 0⟩, none⟩ = some true ↔
        ¬ (1 : ℚ) ≤ 35/100 ∧ ¬ (65/100 : ℚ) ≤ 1) ∧
    ((is_right ⟨some ⟨(0, 0), some 10, some 10, (10, 10), 0⟩,
                some ⟨(0, 0), some 10, some 10, (10, 10), 0⟩, none⟩ = some true ∧
      is_left ⟨some ⟨(0, 0), some 10, some 10, (10, 10), 0⟩,
               some ⟨(0, 0), some 10, some 10, (10, 10), 0⟩, none⟩ ≠ some true ∧
      is_center ⟨some ⟨(0, 0), some 10, some 10, (10, 10), 0⟩,
                 some ⟨(0, 0), some 10, some 10, (10, 10), 0⟩, none⟩ ≠ some true) ∨
     (is_left ⟨some ⟨(0, 0), some 10, some 10, (10, 10), 0⟩,
               some ⟨(0, 0), some 10, some 10, (10, 10), 0⟩, none⟩ = some true ∧
      is_right ⟨some ⟨(0, 0), some 10, some 10, (10, 10), 0⟩,
                some ⟨(0, 0), some 10, some 10, (10, 10), 0⟩, none⟩ ≠ some true ∧
      is_center ⟨some ⟨(0, 0), some 10, some 10, (10, 10), 0⟩,
                 some ⟨(0, 0), some 10, some 10, (10, 10), 0⟩, none⟩ ≠ some true) ∨
     (is_center ⟨some ⟨(0, 0), some 10, some 10, (10, 10), 0⟩,
                 some ⟨(0, 0), some 10, some 10, (10, 10), 0⟩, none⟩ = some true ∧
      is_right ⟨some ⟨(0, 0), some 10, some 10, (10, 10), 0⟩,
                some ⟨(0, 0), some 10, some 10, (10, 10), 0⟩, none⟩ ≠ some true ∧
      is_left ⟨some ⟨(0, 0), some 10, some 10, (10, 10), 0⟩,
               some ⟨(0, 0), some 10, some 10, (10, 10), 0⟩, none⟩ ≠ some true)) :=
  c5_classification_partition _ 1 (by norm_num [horizontal_ratio, pupils_located])

/-- C6: when the pupils are located, `is_blinking` is true iff the average of
the two eyes' blinking ratios is strictly greater than 3.8; at exactly 3.8 it
is false. -/
theorem c6_blinking_threshold (s : GazeState) (l r : Eye)
    (hl : s.eye_left = some l) (hr : s.eye_right = some r)
    (hloc : pupils_located s = true) :
    (is_blinking s = some true ↔ (l.blinking + r.blinking) / 2 > 38/10) ∧
    ((l.blinking + r.blinking) / 2 = 38/10 → is_blinking s = some false) := by
  have hB : is_blinking s = some (decide ((l.blinking + r.blinking) / 2 > 38/10)) := by
    simp [is_blinking, hloc, hl, hr]
  constructor
  · rw [hB]
    simp
  · intro hEq
    rw [hB, hEq]
    norm_num

/-- Witness for C6 at a concrete state whose average blinking ratio is exactly
3.8. -/
theorem c6_blinking_threshold_witness :
    (is_blinking ⟨some ⟨(0, 0), some 0, some 0, (9, 9), 38/10⟩,
                  some ⟨(0, 0), some 0, some 0, (9, 9), 38/10⟩, none⟩ = some true ↔
        ((38/10 : ℚ) + 38/10) / 2 > 38/10) ∧
    (((38/10 : ℚ) + 38/10) / 2 = 38/10 →
      is_blinking ⟨some ⟨(0, 0), some 0, some 0, (9, 9), 38/10⟩,
                   some ⟨(0, 0), some 0, some 0, (9, 9), 38/10⟩, none⟩ = some false) :=
  c6_blinking_threshold
    ⟨some ⟨(0, 0), some 0, some 0, (9, 9), 38/10⟩,
     some ⟨(0, 0), some 0, some 0, (9, 9), 38/10⟩, none⟩
    ⟨(0, 0), some 0, some 0, (9, 9), 38/10⟩
    ⟨(0, 0), some 0, some 0, (9, 9), 38/10⟩
    rfl rfl (by decide)

/-! ## C7: the screen coordinate mapper's averaged box and ratios

The following definitions restate the spec's formulas independently of
`get_gaze_coords`, to be compared with it. -/

/-- The averaged eye box of the spec:
`avg_x1 = (left_x1 + right_x1)/2 + 5`, `avg_x2 = (left_x2 + right_x2)/2 - 5`,
`avg_y1 = (left_y1 + right_y1)/2 - 2`, `avg_y2 = (left_y2 + right_y2)/2 + 2`,
each truncated to an int as in the code. -/
def avg_box (lc rc : BBox) : BBox :=
  ⟨pyInt (((lc.x1 : ℚ) + (rc.x1 : ℚ)) / 2 + 5),
   pyInt (((lc.x2 : ℚ) + (rc.x2 : ℚ)) / 2 - 5),
   pyInt (((lc.y1 : ℚ) + (rc.y1 : ℚ)) / 2 - 2),
   pyInt (((lc.y2 : ℚ) + (rc.y2 : ℚ)) / 2 + 2)⟩

/-- The averaged frame-space pupil point. -/
def avg_pupil (lp rp : ℤ × ℤ) : ℤ × ℤ :=
  (pyInt (((rp.1 : ℚ) + (lp.1 : ℚ)) / 2), pyInt (((rp.2 : ℚ) + (lp.2 : ℚ)) / 2))

/-- Spec: box width as the Euclidean distance between the corner points
`(avg_x1, avg_y1)` and `(avg_x2, avg_y1)`. -/
def spec_box_width (lc rc : BBox) : ℤ :=
  euclid_int ((avg_box lc rc).x1, (avg_box lc rc).y1)
    ((avg_box lc rc).x2, (avg_box lc rc).y1)

/-- Spec: box height as the Euclidean distance between the corner points
`(avg_x1, avg_y1)` and `(avg_x1, avg_y2)`. -/
def spec_box_height (lc rc : BBox) : ℤ :=
  euclid_int ((avg_box lc rc).x1, (avg_box lc rc).y1)
    ((avg_box lc rc).x1, (avg_box lc rc).y2)

/-- Spec: distance of the averaged pupil to the box's left edge. -/
def left_edge_distance (lp rp : ℤ × ℤ) (lc rc : BBox) : ℤ :=
  |(avg_pupil lp rp).1 - (avg_box lc rc).x1|

/-- Spec: distance of the averaged pupil to the box's top edge. -/
def top_edge_distance (lp rp : ℤ × ℤ) (lc rc : BBox) : ℤ :=
  |(avg_pupil lp rp).2 - (avg_box lc rc).y1|

/-- C7: for a frame with a determined gaze (both pupils present, both
pupil-to-edge distances nonzero), `get_gaze_coords` combines the two coarse
boxes into the averaged box of the spec, computes width and height as
Euclidean distances between the corresponding corner points, and returns the
pair of ratios `box_width / left_edge_distance` and
`box_height / top_edge_distance`. -/
theorem c7_gaze_signal_formula (lp rp : ℤ × ℤ) (lc rc : BBox)
    (hw : left_edge_distance lp rp lc rc ≠ 0)
    (hh : top_edge_distance lp rp lc rc ≠ 0) :
    get_gaze_coords (some lp) (some rp) (some (lc, rc)) =
      .ok (some ((spec_box_width lc rc : ℚ) / (left_edge_distance lp rp lc rc : ℚ),
                 (spec_box_height lc rc : ℚ) / (top_edge_distance lp rp lc rc : ℚ))) ∧
    spec_box_width lc rc = |(avg_box lc rc).x2 - (avg_box lc rc).x1| ∧
    spec_box_height lc rc = |(avg_box lc rc).y2 - (avg_box lc rc).y1| := by
  have hbw : spec_box_width lc rc = |(avg_box lc rc).x2 - (avg_box lc rc).x1| :=
    euclid_int_same_y _ _ _
  have hbh : spec_box_height lc rc = |(avg_box lc rc).y2 - (avg_box lc rc).y1| :=
    euclid_int_same_x _ _ _
  refine ⟨?_, hbw, hbh⟩
  simp only [left_edge_distance, top_edge_distance, avg_pupil, avg_box] at hw hh
  simp only [get_gaze_coords, Option.isSome_some, Bool.or_self, if_true,
    euclid_int_same_y, euclid_int_same_x, spec_box_width, spec_box_height,
    left_edge_distance, top_edge_distance, avg_pupil, avg_box]
  rw [if_neg]
  push_neg
  exact ⟨hw, hh⟩

/-- Witness for C7 at concrete boxes and pupils. -/
theorem c7_gaze_signal_formula_witness :
    get_gaze_coords (some (20, 18)) (some (20, 18))
        (some (⟨10, 30, 10, 20⟩, ⟨10, 30, 10, 20⟩)) =
      .ok (some ((spec_box_width ⟨10, 30, 10, 20⟩ ⟨10, 30, 10, 20⟩ : ℚ) /
                   (left_edge_distance (20, 18) (20, 18) ⟨10, 30, 10, 20⟩
                      ⟨10, 30, 10, 20⟩ : ℚ),
                 (spec_box_height ⟨10, 30, 10, 20⟩ ⟨10, 30, 10, 20⟩ : ℚ) /
                   (top_edge_distance (20, 18) (20, 18) ⟨10, 30, 10, 20⟩
                      ⟨10, 30, 10, 20⟩ : ℚ))) ∧
    spec_box_width ⟨10, 30, 10, 20⟩ ⟨10, 30, 10, 20⟩ =
      |(avg_box ⟨10, 30, 10, 20⟩ ⟨10, 30, 10, 20⟩).x2 -
        (avg_box ⟨10, 30, 10, 20⟩ ⟨10, 30, 10, 20⟩).x1| ∧
    spec_box_height ⟨10, 30, 10, 20⟩ ⟨10, 30, 10, 20⟩ =
      |(avg_box ⟨10, 30, 10, 20⟩ ⟨10, 30, 10, 20⟩).y2 -
        (avg_box ⟨10, 30, 10, 20⟩ ⟨10, 30, 10, 20⟩).y1| :=
  c7_gaze_signal_formula (20, 18) (20, 18) ⟨10, 30, 10, 20⟩ ⟨10, 30, 10, 20⟩
    (by norm_num [left_edge_distance, avg_pupil, avg_box, pyInt])
    (by norm_num [top_edge_distance, avg_pupil, avg_box, pyInt])

/-- C1 (code slip): at a frame where the averaged pupil lies on the averaged
box's left edge, the pupil-to-edge distance is 0, the `ZeroDivisionError` is
swallowed by `except Exception: pass`, and the `return` statement after the
`try` block raises `UnboundLocalError` — an exception escapes
`get_gaze_coords` instead of an undetermined result being returned. -/
theorem c1_exception_escapes_at_zero_distance :
    get_gaze_coords (some (15, 15)) (some (15, 15))
        (some (⟨10, 30, 10, 20⟩, ⟨10, 30, 10, 20⟩)) =
      .error .unboundLocalError := by
  norm_num [get_gaze_coords, pyInt, euclid_int]

/-- C8: one message per determined frame, none otherwise; the encoding is the
ASCII comma-joined triple with no length prefix or terminator, and at
`screen_x = 960`, `screen_y = 540`, `blink = 1` it is exactly the 9-character
string `"960,540,1"`. -/
theorem c8_wire_protocol (s : GazeState) (sc_width sc_height : ℤ) (p : ℚ × ℚ) :
    frame_messages s sc_width sc_height none = [] ∧
    frame_messages s sc_width sc_height (some p) =
      [encode_packet (pyInt ((sc_width : ℚ) / p.1)) (pyInt ((sc_height : ℚ) / p.2))
        (main_blink s)] ∧
    (frame_messages s sc_width sc_height (some p)).length = 1 ∧
    encode_packet 960 540 1 = "960,540,1" ∧
    (encode_packet 960 540 1).length = 9 :=
  ⟨rfl, rfl, rfl, rfl, rfl⟩

/-- C9: the `blink` field of every transmitted message is 1 — the guard tests
the truthiness of the bound method object `gaze.is_blinking` rather than
calling it, and a bound method object is always truthy — even in states where
calling `is_blinking()` would return `False`. -/
theorem c9_blink_always_one :
    (∀ s : GazeState, main_blink s = 1) ∧
    ∃ s : GazeState, is_blinking s = some false ∧ main_blink s = 1 := by
  refine ⟨fun s => rfl,
    ⟨⟨some ⟨(0, 0), some 0, some 0, (0, 0), 0⟩,
      some ⟨(0, 0), some 0, some 0, (0, 0), 0⟩, none⟩, ?_, rfl⟩⟩
  norm_num [is_blinking, pupils_located]

/-! ## C10: persistence of the cached bounding boxes -/

lemma coords_arr_run_all_none {dets : List (Option DetectionResult)}
    (h : ∀ d ∈ dets, d = none) (s : GazeState) :
    (run_frames dets s).coords_arr = s.coords_arr := by
  induction dets generalizing s with
  | nil => rfl
  | cons d rest ih =>
      have hd : d = none := h d (List.mem_cons_self _ _)
      subst hd
      have hstep : run_frames (none :: rest) s = run_frames rest (refresh none s) := rfl
      rw [hstep, ih (fun x hx => h x (List.mem_cons_of_mem _ hx))]
      rfl

lemma coords_arr_run_isSome {dets : List (Option DetectionResult)}
    (s : GazeState) (h : s.coords_arr.isSome) :
    ((run_frames dets s).coords_arr).isSome := by
  induction dets generalizing s with
  | nil => exact h
  | cons d rest ih =>
      cases d with
      | none => exact ih (refresh none s) h
      | some dd => exact ih (refresh (some dd) s) rfl

lemma roi_none_iff_aux (dets : List (Option DetectionResult)) (s : GazeState)
    (hs : s.coords_arr = none) :
    (run_frames dets s).coords_arr = none ↔ ∀ d ∈ dets, d = none := by
  induction dets generalizing s with
  | nil => simp [run_frames, hs]
  | cons d rest ih =>
      cases d with
      | none =>
          have hstep : run_frames (none :: rest) s = run_frames rest (refresh none s) :=
            rfl
          rw [hstep, ih (refresh none s) hs]
          simp
      | some dd =>
          have hsome : ((run_frames rest (refresh (some dd) s)).coords_arr).isSome :=
            coords_arr_run_isSome (refresh (some dd) s) rfl
          have hstep :
              run_frames (some dd :: rest) s = run_frames rest (refresh (some dd) s) :=
            rfl
          rw [hstep]
          constructor
          · intro hnone
            rw [hnone] at hsome
            simp at hsome
          · intro hall
            exact absurd (hall (some dd) (List.mem_cons_self _ _)) (by simp)

/-- C10: a refresh on which no face was found leaves `coords_arr` untouched,
so `eye_roi_bb` still returns the boxes computed on the most recent frame
where a face was found, and it is `None` only before the first successful
detection in the engine's lifetime. -/
theorem c10_roi_bb_persists :
    (∀ s : GazeState, eye_roi_bb (refresh none s) = eye_roi_bb s) ∧
    eye_roi_bb init_state = none ∧
    (∀ dets : List (Option DetectionResult),
      (eye_roi_bb (run_frames dets init_state) = none ↔ ∀ d ∈ dets, d = none)) ∧
    (∀ (pre : List (Option DetectionResult)) (d : DetectionResult)
        (post : List (Option DetectionResult)), (∀ x ∈ post, x = none) →
      eye_roi_bb (run_frames (pre ++ some d :: post) init_state) =
        some (coarse_boxes d)) := by
  refine ⟨fun s => rfl, rfl, fun dets => roi_none_iff_aux dets init_state rfl,
    fun pre d post hpost => ?_⟩
  have hsplit :
      run_frames (pre ++ some d :: post) init_state =
        run_frames post (refresh (some d) (run_frames pre init_state)) := by
    simp [run_frames, List.foldl_append]
  show (run_frames (pre ++ some d :: post) init_state).coords_arr =
    some (coarse_boxes d)
  rw [hsplit, coords_arr_run_all_none hpost]
  rfl

/-- Witness for C10: one failed frame, one detection, two more failed frames —
the boxes of the single successful detection are still returned. -/
theorem c10_roi_bb_persists_witness :
    eye_roi_bb
        (run_frames
          ([none] ++
            some ⟨fun i => ((i : ℤ), 2 * (i : ℤ)),
              ⟨(0, 0), some 1, some 1, (4, 4), 0⟩,
              ⟨(0, 0), some 2, some 2, (4, 4), 0⟩⟩ ::
              [none, none])
          init_state) =
      some (coarse_boxes
        ⟨fun i => ((i : ℤ), 2 * (i : ℤ)),
          ⟨(0, 0), some 1, some 1, (4, 4), 0⟩,
          ⟨(0, 0), some 2, some 2, (4, 4), 0⟩⟩) :=
  c10_roi_bb_persists.2.2.2 [none]
    ⟨fun i => ((i : ℤ), 2 * (i : ℤ)),
      ⟨(0, 0), some 1, some 1, (4, 4), 0⟩,
      ⟨(0, 0), some 2, some 2, (4, 4), 0⟩⟩
    [none, none] (by simp)

end GazeUnity
